import Mathlib

/-!
Shallow embedding of `src/include/abb_librws/rws_poco_client.h` from the
abb_librws repository: the `POCOClient` session client and its nested
`POCOResult` outcome container.  The header declares the data model and the
operation signatures, and defines inline the constructor, the timeout
setters and `webSocketExist`; those parts are translated directly.  Method
bodies that live in a `.cpp` file absent from `src/` are modelled from the
specification (each such definition carries a doc comment beginning
`Modelled from the spec:`).
-/

set_option maxRecDepth 4000

namespace AbbLibrws

/-- The `POCOResult::GeneralStatus` enum, rws_poco_client.h lines 64-72. -/
inductive GeneralStatus
  | UNKNOWN
  | OK
  | WEBSOCKET_NOT_ALLOCATED
  | EXCEPTION_POCO_TIMEOUT
  | EXCEPTION_POCO_NET
  | EXCEPTION_POCO_WEBSOCKET
  deriving DecidableEq, Repr

/-- `POCOResult::POCOInfo::HTTPInfo::RequestInfo`: method, uri, content.
C++ strings default-construct to the empty string. -/
structure RequestInfo where
  method : String := ""
  uri : String := ""
  content : String := ""
  deriving DecidableEq, Repr

/-- `POCOResult::POCOInfo::HTTPInfo::ResponseInfo`: the default constructor
sets `status(Poco::Net::HTTPResponse::HTTP_OK)`, i.e. 200 (line 128). -/
structure ResponseInfo where
  status : Nat := 200
  header_info : String := ""
  content : String := ""
  deriving DecidableEq, Repr

/-- `POCOResult::POCOInfo::HTTPInfo`: a request part and a response part. -/
structure HTTPInfo where
  request : RequestInfo := {}
  response : ResponseInfo := {}
  deriving DecidableEq, Repr

/-- `POCOResult::POCOInfo::WebSocketInfo`: the default constructor sets
`flags(0)` (line 160); `frame_content` default-constructs empty. -/
structure WebSocketInfo where
  flags : Int := 0
  frame_content : String := ""
  deriving DecidableEq, Repr

/-- `POCOResult::POCOInfo`: both containers are always present in the C++
struct; "populated" means holding non-default data. -/
structure POCOInfo where
  http : HTTPInfo := {}
  websocket : WebSocketInfo := {}
  deriving DecidableEq, Repr

/-- `POCOClient::POCOResult`: the default constructor sets `status(UNKNOWN)`
(line 192); the strings default-construct empty. -/
structure POCOResult where
  status : GeneralStatus := .UNKNOWN
  exception_message : String := ""
  poco_info : POCOInfo := {}
  deriving DecidableEq, Repr

/-- The value produced by the C++ default constructor `POCOResult()`. -/
def defaultPOCOResult : POCOResult := {}

/-- Modelled from the spec: `recordHttpRequest(method, uri, body)` attaches
request facts by pure assignment (body of `POCOResult::addHTTPRequestInfo`
is not under `src/`). -/
def POCOResult.addHTTPRequestInfo (r : POCOResult) (method uri content : String) :
    POCOResult :=
  { r with poco_info := { r.poco_info with
      http := { r.poco_info.http with
        request := { method := method, uri := uri, content := content } } } }

/-- An HTTP response as read off the wire: status code, header list, body. -/
structure HttpResponse where
  status : Nat
  headers : List (String × String)
  content : String
  deriving DecidableEq, Repr

/-- Flattening of a response header block into the `header_info` string. -/
def flattenHeaders (headers : List (String × String)) : String :=
  String.intercalate "\n" (headers.map fun p => p.1 ++ ": " ++ p.2)

/-- Modelled from the spec: `recordHttpResponse(status, headerBlock, body)`
attaches response facts by pure assignment (body of
`POCOResult::addHTTPResponseInfo` is not under `src/`). -/
def POCOResult.addHTTPResponseInfo (r : POCOResult) (resp : HttpResponse)
    (response_content : String) : POCOResult :=
  { r with poco_info := { r.poco_info with
      http := { r.poco_info.http with
        response := { status := resp.status,
                      header_info := flattenHeaders resp.headers,
                      content := response_content } } } }

/-- Modelled from the spec: `recordWebSocketFrame(flags, payload)` attaches
frame facts by pure assignment (body of `POCOResult::addWebSocketFrameInfo`
is not under `src/`). -/
def POCOResult.addWebSocketFrameInfo (r : POCOResult) (flags : Int)
    (frame_content : String) : POCOResult :=
  { r with poco_info := { r.poco_info with
      websocket := { flags := flags, frame_content := frame_content } } }

/-! ### Substring search

`POCOClient::findSubstringContent` is declared at lines 349-351; its body is
not under `src/`.  The search below is modelled from the spec and built on
an explicit first-occurrence splitter so its behaviour can be proved. -/

/-- Splits a character list at the first occurrence of `pat`, returning the
part before and the part after, or `none` when `pat` does not occur. -/
def splitFirstAux (pat : List Char) : List Char → Option (List Char × List Char)
  | [] => if pat = [] then some ([], []) else none
  | c :: rest =>
    if pat.isPrefixOf (c :: rest) then
      some ([], (c :: rest).drop pat.length)
    else
      match splitFirstAux pat rest with
      | none => none
      | some (a, b) => some (c :: a, b)

/-- Whether `pat` occurs as a contiguous run inside `s`. -/
def occursIn (pat s : List Char) : Bool :=
  (splitFirstAux pat s).isSome

/-- Modelled from the spec: `findSubstringContent(whole, start_marker,
end_marker)` extracts the substring strictly between the two markers and
returns the empty string if either marker is absent (body of
`POCOClient::findSubstringContent` is not under `src/`). -/
def findSubstringContent (whole_string substring_start substring_end : String) :
    String :=
  match splitFirstAux substring_start.data whole_string.data with
  | none => ""
  | some (_, rest) =>
    match splitFirstAux substring_end.data rest with
    | none => ""
    | some (mid, _) => String.mk mid

theorem isPrefixOf_eq_append :
    ∀ (p l : List Char), p.isPrefixOf l = true → l = p ++ l.drop p.length := by
  intro p
  induction p with
  | nil => intro l _; simp
  | cons a as ih =>
    intro l h
    cases l with
    | nil => simp [List.isPrefixOf] at h
    | cons b bs =>
      simp only [List.isPrefixOf, Bool.and_eq_true, beq_iff_eq] at h
      obtain ⟨rfl, h2⟩ := h
      simpa using ih bs h2

theorem splitFirstAux_eq_append {pat : List Char} :
    ∀ {s a b : List Char}, splitFirstAux pat s = some (a, b) → s = a ++ pat ++ b := by
  intro s
  induction s with
  | nil =>
    intro a b h
    by_cases hp : pat = ([] : List Char)
    · simp [splitFirstAux, hp] at h
      obtain ⟨rfl, rfl⟩ := h
      simp [hp]
    · simp [splitFirstAux, hp] at h
  | cons c rest ih =>
    intro a b h
    by_cases hpre : pat.isPrefixOf (c :: rest) = true
    · simp [splitFirstAux, hpre] at h
      obtain ⟨rfl, rfl⟩ := h
      simpa using isPrefixOf_eq_append pat (c :: rest) hpre
    · simp [splitFirstAux, hpre] at h
      cases hrec : splitFirstAux pat rest with
      | none => simp [hrec] at h
      | some p =>
        obtain ⟨a', b'⟩ := p
        simp [hrec] at h
        obtain ⟨rfl, rfl⟩ := h
        simp [ih hrec]

theorem occursIn_append_left {pat y : List Char} (h : occursIn pat y = true) :
    ∀ x, occursIn pat (x ++ y) = true := by
  intro x
  induction x with
  | nil => simpa using h
  | cons c cs ih =>
    simp only [List.cons_append]
    unfold occursIn splitFirstAux
    by_cases hpre : pat.isPrefixOf (c :: (cs ++ y)) = true
    · simp [hpre]
    · simp only [hpre, if_false]
      unfold occursIn at ih
      cases hrec : splitFirstAux pat (cs ++ y) with
      | none => simp [hrec] at ih
      | some p => simp [hrec]

/-! ### Lower-layer faults

The three POCO exception families the header's status enum distinguishes:
`Poco::TimeoutException`, `Poco::Net::NetException` and WebSocket faults. -/

/-- A lower-layer fault raised by the POCO library during an operation. -/
inductive Fault
  | timeout
  | net
  | websocket
  deriving DecidableEq, Repr

/-- The status enumerant each caught fault family is converted to. -/
def mapFault : Fault → GeneralStatus
  | .timeout => .EXCEPTION_POCO_TIMEOUT
  | .net => .EXCEPTION_POCO_NET
  | .websocket => .EXCEPTION_POCO_WEBSOCKET

/-- The outcome the network delivers for one wire exchange: either a full
response or a fault carrying its diagnostic text. -/
inductive NetOutcome
  | ok (response : HttpResponse)
  | fault (f : Fault) (message : String)
  deriving DecidableEq, Repr

/-- The environment of one HTTP call: the outcome of the first send and the
outcome of the (at most one) re-authentication resend. -/
structure HttpEnv where
  first : NetOutcome
  second : NetOutcome
  deriving DecidableEq, Repr

/-- First header value stored under `name`, if any. -/
def headerValue (headers : List (String × String)) (name : String) :
    Option String :=
  (headers.find? fun p => p.1 == name).map (·.2)

/-- Whether a response is a 401 carrying a Digest `WWW-Authenticate`
challenge, the condition under which the client re-authenticates. -/
def hasDigestChallenge (resp : HttpResponse) : Bool :=
  resp.status == 401 &&
    match headerValue resp.headers "WWW-Authenticate" with
    | some v => "Digest".data.isPrefixOf v.data
    | none => false

/-! ### Cookie jar -/

/-- Stores `value` under `name`, overwriting the existing entry with that
name and appending otherwise; keys stay unique. -/
def upsert : List (String × String) → String → String → List (String × String)
  | [], name, value => [(name, value)]
  | p :: rest, name, value =>
    if p.1 = name then (name, value) :: rest
    else p :: upsert rest name value

/-- Looks a cookie up by name. -/
def lookupCookie : List (String × String) → String → Option String
  | [], _ => none
  | p :: rest, name => if p.1 = name then some p.2 else lookupCookie rest name

/-- The characters before the first occurrence of `sep`, or all of them. -/
def takeUntilChar (sep : Char) : List Char → List Char
  | [] => []
  | c :: rest => if c = sep then [] else c :: takeUntilChar sep rest

/-- The characters after the first occurrence of `sep`, if it occurs. -/
def dropThroughChar (sep : Char) : List Char → Option (List Char)
  | [] => none
  | c :: rest => if c = sep then some rest else dropThroughChar sep rest

/-- Modelled from the spec: `POCOClient::extractAndStoreCookie` (declared at
line 398, body not under `src/`) extracts the `name=value` pair up to the
first `;` of a `Set-Cookie` string and upserts it into the cookie jar. -/
def extractAndStoreCookie (jar : List (String × String))
    (cookie_string : String) : List (String × String) :=
  let pair := takeUntilChar ';' cookie_string.data
  let name := takeUntilChar '=' pair
  let value := (dropThroughChar '=' pair).getD []
  upsert jar (String.mk name) (String.mk value)

/-- The `Set-Cookie` header values of a response, in order. -/
def setCookieHeaders (resp : HttpResponse) : List String :=
  resp.headers.filterMap fun p =>
    if p.1 == "Set-Cookie" then some p.2 else none

/-- Folds every `Set-Cookie` header of `resp` into the jar. -/
def storeCookies (jar : List (String × String)) (resp : HttpResponse) :
    List (String × String) :=
  (setCookieHeaders resp).foldl extractAndStoreCookie jar

/-- Renders the jar as the value of a `Cookie` request header. -/
def renderCookies (jar : List (String × String)) : String :=
  String.intercalate "; " (jar.map fun p => p.1 ++ "=" ++ p.2)

/-! ### Client state -/

/-- `POCOClient::DEFAULT_TIMEOUT`, line 403: microseconds. -/
def DEFAULT_TIMEOUT : Int := 400000

/-- `POCOClient::LONG_TIMEOUT`, line 408: microseconds. -/
def LONG_TIMEOUT : Int := 10000000

/-- The mutable state of a `POCOClient`: the session's keep-alive flag and
timeout, the cookie jar `cookies_`, the optional WebSocket handle
`p_websocket_`, and the construction-time identity and credentials. -/
structure ClientState where
  ip_address : String
  port : Nat
  user : String
  password : String
  keepAlive : Bool
  timeout : Int
  cookies : List (String × String)
  p_websocket : Option Unit
  deriving DecidableEq, Repr

/-- The `POCOClient` constructor, lines 251-261: stores identity and
credentials, then sets keep-alive true and the default timeout. -/
def POCOClient.construct (ip_address : String) (port : Nat)
    (user password : String) : ClientState :=
  { ip_address := ip_address, port := port, user := user, password := password,
    keepAlive := true, timeout := DEFAULT_TIMEOUT,
    cookies := [], p_websocket := none }

/-- `POCOClient::resetTimeout`, line 309. -/
def resetTimeout (st : ClientState) : ClientState :=
  { st with timeout := DEFAULT_TIMEOUT }

/-- `POCOClient::setLongTimeout`, line 314. -/
def setLongTimeout (st : ClientState) : ClientState :=
  { st with timeout := LONG_TIMEOUT }

/-- `POCOClient::webSocketExist`, line 321: `!p_websocket_.isNull()`. -/
def webSocketExist (st : ClientState) : Bool :=
  st.p_websocket.isSome

/-! ### HTTP dispatch -/

/-- An HTTP request as put on the wire. -/
structure HttpRequest where
  method : String
  uri : String
  content : String
  headers : List (String × String)
  deriving DecidableEq, Repr

/-- Modelled from the spec: request building (inside
`POCOClient::makeHTTPRequest`, body not under `src/`) attaches the cookie
jar as a `Cookie` header and sets `Content-Length` from the body length. -/
def buildRequest (jar : List (String × String)) (method uri content : String) :
    HttpRequest :=
  { method := method, uri := uri, content := content,
    headers := [("Cookie", renderCookies jar),
                ("Content-Length", Nat.repr content.length)] }

/-- Modelled from the spec: the Digest `Authorization` header value computed
from the stored credentials and the challenge parameters (the RFC 2617 hash
is abstracted as an injective tag of its inputs; no claim depends on it). -/
def digestAuthorization (user password method uri challenge : String) : String :=
  "Digest username=" ++ user ++ ", response=H(" ++ user ++ ":" ++ password
    ++ ":" ++ method ++ ":" ++ uri ++ ":" ++ challenge ++ ")"

/-- What one client call produces: the returned `POCOResult`, the state the
client is left in, and the trace of requests actually sent on the wire. -/
structure CallOutput where
  result : POCOResult
  state : ClientState
  sent : List HttpRequest
  deriving DecidableEq, Repr

/-- Records a received response into the result. -/
def recordResponse (r : POCOResult) (resp : HttpResponse) : POCOResult :=
  r.addHTTPResponseInfo resp resp.content

/-- Modelled from the spec: `POCOClient::makeHTTPRequest` (declared at lines
363-365, body not under `src/`).  Builds the request with the cookie jar
attached, records the request facts, dispatches it; on a 401 Digest
challenge recomputes credentials and resends the same body exactly once; the
recorded response is the final one, its `Set-Cookie` headers are upserted
into the jar, and the general status is OK unless a fault was caught, in
which case the matching error status and the caught message are set. -/
def makeHTTPRequest (st : ClientState) (env : HttpEnv)
    (method uri content : String) : CallOutput :=
  let req := buildRequest st.cookies method uri content
  let r0 := defaultPOCOResult.addHTTPRequestInfo method uri content
  match env.first with
  | .fault f msg =>
    { result := { r0 with status := mapFault f, exception_message := msg },
      state := st, sent := [req] }
  | .ok resp =>
    if hasDigestChallenge resp then
      let challenge := (headerValue resp.headers "WWW-Authenticate").getD ""
      let req2 := { req with headers := req.headers ++
        [("Authorization",
          digestAuthorization st.user st.password method uri challenge)] }
      match env.second with
      | .fault f msg =>
        { result := { r0 with status := mapFault f, exception_message := msg },
          state := st, sent := [req, req2] }
      | .ok resp2 =>
        { result := { recordResponse r0 resp2 with status := .OK },
          state := { st with cookies := storeCookies st.cookies resp2 },
          sent := [req, req2] }
    else
      { result := { recordResponse r0 resp with status := .OK },
        state := { st with cookies := storeCookies st.cookies resp },
        sent := [req] }

/-- Modelled from the spec: `POCOClient::httpGet` routes through the single
internal dispatch with method GET and an empty body. -/
def httpGet (st : ClientState) (env : HttpEnv) (uri : String) : CallOutput :=
  makeHTTPRequest st env "GET" uri ""

/-- Modelled from the spec: `POCOClient::httpPost`. -/
def httpPost (st : ClientState) (env : HttpEnv) (uri content : String) :
    CallOutput :=
  makeHTTPRequest st env "POST" uri content

/-- Modelled from the spec: `POCOClient::httpPut`. -/
def httpPut (st : ClientState) (env : HttpEnv) (uri content : String) :
    CallOutput :=
  makeHTTPRequest st env "PUT" uri content

/-- Modelled from the spec: `POCOClient::httpDelete`. -/
def httpDelete (st : ClientState) (env : HttpEnv) (uri : String) : CallOutput :=
  makeHTTPRequest st env "DELETE" uri ""

/-! ### WebSocket path -/

/-- Modelled from the spec: `POCOClient::webSocketConnect` (declared at line
331, body not under `src/`) performs an HTTP Upgrade handshake at `uri`
requesting the given sub-protocol; on success it stores the upgraded
connection as the client's WebSocket handle and returns status OK with
response diagnostics; on a caught fault it returns the matching error
status and leaves any previous handle untouched. -/
def webSocketConnect (st : ClientState) (env : NetOutcome)
    (uri protocol : String) : CallOutput :=
  let req : HttpRequest :=
    { method := "GET", uri := uri, content := "",
      headers := [("Cookie", renderCookies st.cookies),
                  ("Upgrade", "websocket"),
                  ("Sec-WebSocket-Protocol", protocol)] }
  let r0 := defaultPOCOResult.addHTTPRequestInfo "GET" uri ""
  match env with
  | .fault f msg =>
    { result := { r0 with status := mapFault f, exception_message := msg },
      state := st, sent := [req] }
  | .ok resp =>
    { result := { recordResponse r0 resp with status := .OK },
      state := { st with p_websocket := some () },
      sent := [req] }

/-- The outcome the WebSocket delivers for one receive: a frame (flags and
payload, possibly accumulated over several buffer reads) or a fault. -/
inductive WsOutcome
  | frame (flags : Int) (content : String)
  | fault (f : Fault) (message : String)
  deriving DecidableEq, Repr

/-- What one WebSocket receive produces: the returned result, the state the
client is left in, and the number of socket reads performed. -/
structure WsOutput where
  result : POCOResult
  state : ClientState
  reads : Nat
  deriving DecidableEq, Repr

/-- Modelled from the spec: `POCOClient::webSocketRecieveFrame` (declared at
line 338, body not under `src/`).  With no allocated handle it returns
immediately with status WEBSOCKET_NOT_ALLOCATED and performs no socket
read; otherwise it blocks for one frame and records its flags and payload,
converting a caught fault to the matching error status. -/
def webSocketRecieveFrame (st : ClientState) (env : WsOutcome) : WsOutput :=
  if webSocketExist st then
    match env with
    | .frame flags content =>
      { result := { defaultPOCOResult.addWebSocketFrameInfo flags content with
                    status := .OK },
        state := st, reads := 1 }
    | .fault f msg =>
      { result := { defaultPOCOResult with
          status := mapFault f, exception_message := msg },
        state := st, reads := 1 }
  else
    { result := { defaultPOCOResult with status := .WEBSOCKET_NOT_ALLOCATED },
      state := st, reads := 0 }

/-! ### Text rendering of a result -/

/-- Modelled from the spec: `describeStatus()` maps the general status
enumerant to a human string (body of `POCOResult::mapGeneralStatus` is not
under `src/`). -/
def POCOResult.mapGeneralStatus (r : POCOResult) : String :=
  match r.status with
  | .UNKNOWN => "UNKNOWN"
  | .OK => "OK"
  | .WEBSOCKET_NOT_ALLOCATED => "WEBSOCKET_NOT_ALLOCATED"
  | .EXCEPTION_POCO_TIMEOUT => "EXCEPTION_POCO_TIMEOUT"
  | .EXCEPTION_POCO_NET => "EXCEPTION_POCO_NET"
  | .EXCEPTION_POCO_WEBSOCKET => "EXCEPTION_POCO_WEBSOCKET"

/-- Decodes a frame's low flag bits into the RFC 6455 opcode name. -/
def mapOpcode (flags : Int) : String :=
  match flags.toNat % 16 with
  | 0 => "FRAME_OP_CONT"
  | 1 => "FRAME_OP_TEXT"
  | 2 => "FRAME_OP_BINARY"
  | 8 => "FRAME_OP_CLOSE"
  | 9 => "FRAME_OP_PING"
  | 10 => "FRAME_OP_PONG"
  | _ => "FRAME_OP_UNDEFINED"

/-- Modelled from the spec: `describeWebSocketOpcode()` decodes the low bits
of the stored frame flags (body of `POCOResult::mapWebSocketOpcode` is not
under `src/`). -/
def POCOResult.mapWebSocketOpcode (r : POCOResult) : String :=
  mapOpcode r.poco_info.websocket.flags

/-- An indentation run of `n` spaces. -/
def indentStr (n : Nat) : String :=
  String.mk (List.replicate n ' ')

/-- The exception-message line: present exactly when the message is
non-empty, regardless of verbosity. -/
def exceptionPart (r : POCOResult) (ind : String) : String :=
  if r.exception_message = "" then ""
  else ind ++ "Exception message: " ++ r.exception_message

/-- The verbose HTTP block: method, URI, request content, response status,
response header block and response body. -/
def httpDetail (h : HTTPInfo) (ind : String) : String :=
  ind ++ "HTTP request method: " ++ h.request.method ++
  ind ++ "HTTP request URI: " ++ h.request.uri ++
  ind ++ "HTTP request content: " ++ h.request.content ++
  ind ++ "HTTP response status: " ++ Nat.repr h.response.status ++
  ind ++ "HTTP response header info: " ++ h.response.header_info ++
  ind ++ "HTTP response content: " ++ h.response.content

/-- The verbose WebSocket block: frame flags, decoded opcode and payload. -/
def wsDetail (w : WebSocketInfo) (ind : String) : String :=
  ind ++ "WebSocket flags: " ++ Int.repr w.flags ++
  ind ++ "WebSocket opcode: " ++ mapOpcode w.flags ++
  ind ++ "WebSocket frame content: " ++ w.frame_content

/-- The verbose tail: each diagnostic block appears when its section holds
non-default data. -/
def verboseInfo (r : POCOResult) (ind : String) : String :=
  (if r.poco_info.http = ({} : HTTPInfo) then ""
   else httpDetail r.poco_info.http ind) ++
  (if r.poco_info.websocket = ({} : WebSocketInfo) then ""
   else wsDetail r.poco_info.websocket ind)

/-- Modelled from the spec: `render(verbose, indent)` (body of
`POCOResult::toString`, declared at line 240, is not under `src/`): always
includes the mapped general status, includes the exception message whenever
non-empty, and only when `verbose` also includes the populated diagnostic
block(s). -/
def POCOResult.toString (r : POCOResult) (verbose : Bool) (indent : Nat) :
    String :=
  (indentStr indent ++ "General status: ") ++ r.mapGeneralStatus ++
    (exceptionPart r ("\n" ++ indentStr indent) ++
     (if verbose then verboseInfo r ("\n" ++ indentStr indent) else ""))

/-- Overwrites the recorded HTTP response body of a result. -/
def setResponseContent (r : POCOResult) (c : String) : POCOResult :=
  { r with poco_info := { r.poco_info with
      http := { r.poco_info.http with
        response := { r.poco_info.http.response with content := c } } } }

/-- Overwrites the recorded WebSocket frame payload of a result. -/
def setFrameContent (r : POCOResult) (c : String) : POCOResult :=
  { r with poco_info := { r.poco_info with
      websocket := { r.poco_info.websocket with frame_content := c } } }

/-! ### Result mutation sequences

The header exposes exactly three mutators on a `POCOResult`
(`addHTTPRequestInfo`, `addHTTPResponseInfo`, `addWebSocketFrameInfo`);
a sequence of their applications models the life of one result object. -/

/-- One application of a `POCOResult` mutator. -/
inductive ResultOp
  | reqInfo (method uri content : String)
  | respInfo (resp : HttpResponse) (content : String)
  | wsInfo (flags : Int) (content : String)
  deriving DecidableEq, Repr

/-- Applies one mutator to a result. -/
def applyOp (r : POCOResult) : ResultOp → POCOResult
  | .reqInfo method uri content => r.addHTTPRequestInfo method uri content
  | .respInfo resp content => r.addHTTPResponseInfo resp content
  | .wsInfo flags content => r.addWebSocketFrameInfo flags content

/-- Applies a sequence of mutators in order. -/
def applyOps (r : POCOResult) (ops : List ResultOp) : POCOResult :=
  ops.foldl applyOp r

/-- Whether an op is a call to `addHTTPResponseInfo`. -/
def isRespInfo : ResultOp → Bool
  | .respInfo _ _ => true
  | _ => false

/-- `t` occurs as a contiguous substring of `s`. -/
def containsStr (s t : String) : Prop :=
  ∃ a b : List Char, s.data = a ++ t.data ++ b

theorem containsStr_end (x t : String) : containsStr (x ++ t) t :=
  ⟨x.data, [], by simp [String.data_append]⟩

theorem containsStr_left (x : String) {s t : String} (h : containsStr s t) :
    containsStr (x ++ s) t := by
  obtain ⟨a, b, hab⟩ := h
  exact ⟨x.data ++ a, b, by simp [String.data_append, hab]⟩

theorem containsStr_right (y : String) {s t : String} (h : containsStr s t) :
    containsStr (s ++ y) t := by
  obtain ⟨a, b, hab⟩ := h
  exact ⟨a, b ++ y.data, by simp [String.data_append, hab]⟩

theorem containsStr_app (x y t : String) : containsStr (x ++ t ++ y) t :=
  containsStr_right y (containsStr_end x t)

/-! ### Concrete fixtures used by the witnesses -/

/-- A freshly constructed client (the factory-default RWS credentials). -/
def freshClient : ClientState :=
  POCOClient.construct "192.168.125.1" 80 "Default User" "robotics"

/-- A 401 response carrying a Digest challenge (first nonce). -/
def challengeResp1 : HttpResponse where
  status := 401
  headers := [("WWW-Authenticate", "Digest realm=wr, nonce=n1")]
  content := ""

/-- A 401 response carrying a Digest challenge (second nonce). -/
def challengeResp2 : HttpResponse where
  status := 401
  headers := [("WWW-Authenticate", "Digest realm=wr, nonce=n2")]
  content := ""

/-- A plain 200 response with one `Set-Cookie` header. -/
def okResp : HttpResponse where
  status := 200
  headers := [("Content-Type", "application/xhtml+xml"),
              ("Set-Cookie", "ABBCX=abc123; path=/; HttpOnly")]
  content := "<html>ok</html>"

/-- An environment whose first and second responses are both challenges. -/
def doubleChallengeEnv : HttpEnv where
  first := NetOutcome.ok challengeResp1
  second := NetOutcome.ok challengeResp2

/-- An environment whose first send times out. -/
def timeoutEnv : HttpEnv where
  first := NetOutcome.fault Fault.timeout "Timeout"
  second := NetOutcome.ok okResp

/-- An environment that succeeds on the first send. -/
def plainEnv : HttpEnv where
  first := NetOutcome.ok okResp
  second := NetOutcome.ok okResp

/-! ### Claim theorems -/

/-- C5: `findSubstringContent` returns the substring strictly between the
two markers — when the result is non-empty, the whole string decomposes as
`pre ++ start ++ result ++ end ++ post` — and returns the empty string when
either marker is absent; in particular
`findSubstringContent "<a>hello</a>" "<a>" "</a>" = "hello"` and
`findSubstringContent "abc" "<a>" "</a>" = ""`. -/
theorem c5_findSubstringContent_spec :
    findSubstringContent "<a>hello</a>" "<a>" "</a>" = "hello" ∧
    findSubstringContent "abc" "<a>" "</a>" = "" ∧
    (∀ whole s e : String,
      occursIn s.data whole.data = false ∨ occursIn e.data whole.data = false →
      findSubstringContent whole s e = "") ∧
    (∀ whole s e : String, findSubstringContent whole s e ≠ "" →
      ∃ pre post : List Char,
        whole.data = pre ++ s.data ++ (findSubstringContent whole s e).data
          ++ e.data ++ post) := by
  refine ⟨by decide, by decide, ?_, ?_⟩
  · intro whole s e h
    cases hs : splitFirstAux s.data whole.data with
    | none => simp [findSubstringContent, hs]
    | some p =>
      obtain ⟨a, rest⟩ := p
      have hocc : occursIn s.data whole.data = true := by
        simp [occursIn, hs]
      have he : occursIn e.data whole.data = false := by
        cases h with
        | inl h1 => rw [hocc] at h1; cases h1
        | inr h2 => exact h2
      cases hrest : splitFirstAux e.data rest with
      | none => simp [findSubstringContent, hs, hrest]
      | some q =>
        exfalso
        have hoccrest : occursIn e.data rest = true := by
          simp [occursIn, hrest]
        have hw : whole.data = a ++ s.data ++ rest := splitFirstAux_eq_append hs
        have : occursIn e.data whole.data = true := by
          rw [hw, List.append_assoc]
          exact occursIn_append_left (occursIn_append_left hoccrest s.data) a
        rw [this] at he
        cases he
  · intro whole s e h
    cases hs : splitFirstAux s.data whole.data with
    | none => exfalso; exact h (by simp [findSubstringContent, hs])
    | some p =>
      obtain ⟨a, rest⟩ := p
      cases hrest : splitFirstAux e.data rest with
      | none => exfalso; exact h (by simp [findSubstringContent, hs, hrest])
      | some q =>
        obtain ⟨mid, post⟩ := q
        have hval : findSubstringContent whole s e = String.mk mid := by
          simp [findSubstringContent, hs, hrest]
        have hw : whole.data = a ++ s.data ++ rest := splitFirstAux_eq_append hs
        have hr : rest = mid ++ e.data ++ post := splitFirstAux_eq_append hrest
        refine ⟨a, post, ?_⟩
        rw [hval]
        rw [hw, hr]
        simp

/-- Witness for C5 at the concrete absent-marker input. -/
theorem c5_witness :
    (occursIn "<a>".data "abc".data = false ∨
      occursIn "</a>".data "abc".data = false) ∧
    findSubstringContent "abc" "<a>" "</a>" = "" :=
  ⟨Or.inl (by decide),
    c5_findSubstringContent_spec.2.2.1 "abc" "<a>" "</a>" (Or.inl (by decide))⟩

/-- C10: a freshly constructed client has keep-alive enabled and the default
timeout of exactly 400000 µs; `resetTimeout` restores exactly that value,
`setLongTimeout` sets exactly 10000000 µs, and the long preset is 25 times
the default. -/
theorem c10_keepalive_and_timeouts :
    (∀ ip port user password,
      (POCOClient.construct ip port user password).keepAlive = true ∧
      (POCOClient.construct ip port user password).timeout = 400000) ∧
    (∀ st, (resetTimeout st).timeout = 400000) ∧
    (∀ st, (setLongTimeout st).timeout = 10000000) ∧
    DEFAULT_TIMEOUT = 400000 ∧ LONG_TIMEOUT = 10000000 ∧
    LONG_TIMEOUT = 25 * DEFAULT_TIMEOUT := by
  exact ⟨fun _ _ _ _ => ⟨rfl, rfl⟩, fun _ => rfl, fun _ => rfl,
    rfl, rfl, by decide⟩

/-- C4: `webSocketRecieveFrame` on a client whose WebSocket handle is absent
returns immediately with status WEBSOCKET_NOT_ALLOCATED, performs no socket
read, leaves the client state unchanged, raises nothing (it is a total
function) and records no exception text or diagnostic data. -/
theorem c4_receive_without_handle (st : ClientState) (env : WsOutcome)
    (h : st.p_websocket = none) :
    (webSocketRecieveFrame st env).result.status =
      GeneralStatus.WEBSOCKET_NOT_ALLOCATED ∧
    (webSocketRecieveFrame st env).reads = 0 ∧
    (webSocketRecieveFrame st env).state = st ∧
    (webSocketRecieveFrame st env).result.exception_message = "" ∧
    (webSocketRecieveFrame st env).result.poco_info = {} := by
  have hws : webSocketExist st = false := by simp [webSocketExist, h]
  refine ⟨?_, ?_, ?_, ?_, ?_⟩ <;>
    simp [webSocketRecieveFrame, hws, defaultPOCOResult]

/-- Witness for C4 on a freshly constructed client. -/
theorem c4_witness :
    freshClient.p_websocket = none ∧
    (webSocketRecieveFrame freshClient (WsOutcome.frame 0 "")).result.status =
      GeneralStatus.WEBSOCKET_NOT_ALLOCATED :=
  ⟨rfl, (c4_receive_without_handle freshClient (WsOutcome.frame 0 "") rfl).1⟩

theorem mapFault_ne_unknown (f : Fault) : mapFault f ≠ GeneralStatus.UNKNOWN := by
  cases f <;> simp [mapFault]

theorem makeHTTPRequest_status_cases (st : ClientState) (env : HttpEnv)
    (m u c : String) :
    (makeHTTPRequest st env m u c).result.status = GeneralStatus.OK ∨
    ∃ f, (makeHTTPRequest st env m u c).result.status = mapFault f := by
  cases hf : env.first with
  | fault f msg => exact Or.inr ⟨f, by simp [makeHTTPRequest, hf]⟩
  | ok resp =>
    by_cases hd : hasDigestChallenge resp = true
    · cases hs : env.second with
      | fault f msg =>
        exact Or.inr ⟨f, by simp [makeHTTPRequest, hf, hd, hs]⟩
      | ok resp2 =>
        exact Or.inl (by simp [makeHTTPRequest, hf, hd, hs])
    · exact Or.inl (by
        simp only [Bool.not_eq_true] at hd
        simp [makeHTTPRequest, hf, hd])

/-- C6: the status of a result is UNKNOWN exactly when no operation has
completed on it: the default constructor sets UNKNOWN, and every public
operation returns a result whose status is no longer UNKNOWN. -/
theorem c6_unknown_only_before_any_operation :
    defaultPOCOResult.status = GeneralStatus.UNKNOWN ∧
    (∀ st env uri,
      (httpGet st env uri).result.status ≠ GeneralStatus.UNKNOWN) ∧
    (∀ st env uri content,
      (httpPost st env uri content).result.status ≠ GeneralStatus.UNKNOWN) ∧
    (∀ st env uri content,
      (httpPut st env uri content).result.status ≠ GeneralStatus.UNKNOWN) ∧
    (∀ st env uri,
      (httpDelete st env uri).result.status ≠ GeneralStatus.UNKNOWN) ∧
    (∀ st env uri protocol,
      (webSocketConnect st env uri protocol).result.status ≠
        GeneralStatus.UNKNOWN) ∧
    (∀ st env,
      (webSocketRecieveFrame st env).result.status ≠ GeneralStatus.UNKNOWN) := by
  have hmk : ∀ st env m u c,
      (makeHTTPRequest st env m u c).result.status ≠ GeneralStatus.UNKNOWN := by
    intro st env m u c h
    rcases makeHTTPRequest_status_cases st env m u c with hok | ⟨f, hf⟩
    · rw [hok] at h; cases h
    · rw [hf] at h; exact mapFault_ne_unknown f h
  refine ⟨rfl, ?_, ?_, ?_, ?_, ?_, ?_⟩
  · intro st env uri; exact hmk st env "GET" uri ""
  · intro st env uri content; exact hmk st env "POST" uri content
  · intro st env uri content; exact hmk st env "PUT" uri content
  · intro st env uri; exact hmk st env "DELETE" uri ""
  · intro st env uri protocol h
    cases env with
    | fault f msg =>
      simp [webSocketConnect] at h
      exact mapFault_ne_unknown f h
    | ok resp => simp [webSocketConnect] at h
  · intro st env h
    by_cases hws : webSocketExist st = true
    · cases env with
      | frame flags content => simp [webSocketRecieveFrame, hws] at h
      | fault f msg =>
        simp [webSocketRecieveFrame, hws] at h
        exact mapFault_ne_unknown f h
    · simp only [Bool.not_eq_true] at hws
      simp [webSocketRecieveFrame, hws] at h

/-- Witness for C6 on a concrete completed call. -/
theorem c6_witness :
    ¬ (httpGet freshClient plainEnv "/rw/system").result.status =
      GeneralStatus.UNKNOWN :=
  c6_unknown_only_before_any_operation.2.1 freshClient plainEnv "/rw/system"

/-- C1 counterexample: the claim says that for every public operation,
"when no fault occurs the status is OK"; but `webSocketRecieveFrame` on a
freshly constructed client, with the lower layer delivering a frame and no
fault at all, returns WEBSOCKET_NOT_ALLOCATED, not OK. -/
theorem c1_counterexample :
    (webSocketRecieveFrame freshClient
      (WsOutcome.frame 1 "data")).result.status ≠ GeneralStatus.OK ∧
    (webSocketRecieveFrame freshClient
      (WsOutcome.frame 1 "data")).result.status =
        GeneralStatus.WEBSOCKET_NOT_ALLOCATED := by
  refine ⟨?_, ?_⟩ <;> decide

/-- C1 (amended): every public operation is total and returns a
`POCOResult`; every lower-layer fault is caught and mapped to the matching
error status — EXCEPTION_POCO_TIMEOUT, EXCEPTION_POCO_NET or
EXCEPTION_POCO_WEBSOCKET — with the caught message recorded in
`exception_message`; when no fault occurs the status is OK, except that
`webSocketRecieveFrame` with no allocated WebSocket handle returns
WEBSOCKET_NOT_ALLOCATED. -/
theorem c1_faults_never_escape :
    (mapFault Fault.timeout = GeneralStatus.EXCEPTION_POCO_TIMEOUT ∧
     mapFault Fault.net = GeneralStatus.EXCEPTION_POCO_NET ∧
     mapFault Fault.websocket = GeneralStatus.EXCEPTION_POCO_WEBSOCKET) ∧
    (∀ st env uri, httpGet st env uri = makeHTTPRequest st env "GET" uri "") ∧
    (∀ st env uri content,
      httpPost st env uri content = makeHTTPRequest st env "POST" uri content) ∧
    (∀ st env uri content,
      httpPut st env uri content = makeHTTPRequest st env "PUT" uri content) ∧
    (∀ st env uri,
      httpDelete st env uri = makeHTTPRequest st env "DELETE" uri "") ∧
    (∀ st env m u c f msg, env.first = NetOutcome.fault f msg →
      (makeHTTPRequest st env m u c).result.status = mapFault f ∧
      (makeHTTPRequest st env m u c).result.exception_message = msg) ∧
    (∀ st env m u c resp f msg, env.first = NetOutcome.ok resp →
      hasDigestChallenge resp = true → env.second = NetOutcome.fault f msg →
      (makeHTTPRequest st env m u c).result.status = mapFault f ∧
      (makeHTTPRequest st env m u c).result.exception_message = msg) ∧
    (∀ st env m u c resp, env.first = NetOutcome.ok resp →
      hasDigestChallenge resp = false →
      (makeHTTPRequest st env m u c).result.status = GeneralStatus.OK) ∧
    (∀ st env m u c resp resp2, env.first = NetOutcome.ok resp →
      hasDigestChallenge resp = true → env.second = NetOutcome.ok resp2 →
      (makeHTTPRequest st env m u c).result.status = GeneralStatus.OK) ∧
    (∀ st uri protocol f msg,
      (webSocketConnect st (NetOutcome.fault f msg) uri protocol).result.status
        = mapFault f ∧
      (webSocketConnect st (NetOutcome.fault f msg) uri
        protocol).result.exception_message = msg) ∧
    (∀ st uri protocol resp,
      (webSocketConnect st (NetOutcome.ok resp) uri protocol).result.status =
        GeneralStatus.OK) ∧
    (∀ st f msg, webSocketExist st = true →
      (webSocketRecieveFrame st (WsOutcome.fault f msg)).result.status =
        mapFault f ∧
      (webSocketRecieveFrame st
        (WsOutcome.fault f msg)).result.exception_message = msg) ∧
    (∀ st flags content, webSocketExist st = true →
      (webSocketRecieveFrame st (WsOutcome.frame flags content)).result.status
        = GeneralStatus.OK) ∧
    (∀ st env, webSocketExist st = false →
      (webSocketRecieveFrame st env).result.status =
        GeneralStatus.WEBSOCKET_NOT_ALLOCATED) := by
  refine ⟨⟨rfl, rfl, rfl⟩, fun _ _ _ => rfl, fun _ _ _ _ => rfl,
    fun _ _ _ _ => rfl, fun _ _ _ => rfl, ?_, ?_, ?_, ?_, ?_, ?_, ?_, ?_, ?_⟩
  · intro st env m u c f msg hf
    constructor <;> simp [makeHTTPRequest, hf]
  · intro st env m u c resp f msg hf hd hs
    constructor <;> simp [makeHTTPRequest, hf, hd, hs]
  · intro st env m u c resp hf hd
    simp [makeHTTPRequest, hf, hd]
  · intro st env m u c resp resp2 hf hd hs
    simp [makeHTTPRequest, hf, hd, hs]
  · intro st uri protocol f msg
    constructor <;> simp [webSocketConnect]
  · intro st uri protocol resp
    simp [webSocketConnect]
  · intro st f msg hws
    constructor <;> simp [webSocketRecieveFrame, hws]
  · intro st flags content hws
    simp [webSocketRecieveFrame, hws]
  · intro st env hws
    cases env <;> simp [webSocketRecieveFrame, hws, defaultPOCOResult]

/-- Witness for C1 (amended): a concrete timeout fault on an HTTP call maps
to EXCEPTION_POCO_TIMEOUT with the caught message. -/
theorem c1_witness :
    timeoutEnv.first = NetOutcome.fault Fault.timeout "Timeout" ∧
    (makeHTTPRequest freshClient timeoutEnv "GET" "/rw/system"
      "").result.status = GeneralStatus.EXCEPTION_POCO_TIMEOUT :=
  ⟨rfl,
    (c1_faults_never_escape.2.2.2.2.2.1 freshClient timeoutEnv
      "GET" "/rw/system" "" Fault.timeout "Timeout" rfl).1⟩

/-- C2: on a first response that is a 401 Digest challenge the client
resends the same request exactly once with an `Authorization` header
computed from the stored credentials, records the second response whatever
its status (a second 401 challenge included, with general status OK rather
than a synthesized error), and no call ever sends more than two requests. -/
theorem c2_digest_retry_once :
    (∀ st env m u c, (makeHTTPRequest st env m u c).sent.length ≤ 2) ∧
    (∀ st env m u c resp1, env.first = NetOutcome.ok resp1 →
      hasDigestChallenge resp1 = true →
      (makeHTTPRequest st env m u c).sent =
        [buildRequest st.cookies m u c,
         { buildRequest st.cookies m u c with
             headers := (buildRequest st.cookies m u c).headers ++
               [("Authorization",
                 digestAuthorization st.user st.password m u
                   ((headerValue resp1.headers "WWW-Authenticate").getD ""))] }] ∧
      (∀ resp2, env.second = NetOutcome.ok resp2 →
        (makeHTTPRequest st env m u c).result.poco_info.http.response.status =
          resp2.status ∧
        (makeHTTPRequest st env m u c).result.status = GeneralStatus.OK)) ∧
    (∀ st env m u c resp1, env.first = NetOutcome.ok resp1 →
      hasDigestChallenge resp1 = false →
      (makeHTTPRequest st env m u c).sent =
        [buildRequest st.cookies m u c]) := by
  refine ⟨?_, ?_, ?_⟩
  · intro st env m u c
    cases hf : env.first with
    | fault f msg => simp [makeHTTPRequest, hf]
    | ok resp =>
      by_cases hd : hasDigestChallenge resp = true
      · cases hs : env.second with
        | fault f msg => simp [makeHTTPRequest, hf, hd, hs]
        | ok resp2 => simp [makeHTTPRequest, hf, hd, hs]
      · simp only [Bool.not_eq_true] at hd
        simp [makeHTTPRequest, hf, hd]
  · intro st env m u c resp1 hf hd
    refine ⟨?_, ?_⟩
    · cases hs : env.second with
      | fault f msg => simp [makeHTTPRequest, hf, hd, hs]
      | ok resp2 => simp [makeHTTPRequest, hf, hd, hs]
    · intro resp2 hs
      constructor <;>
        simp [makeHTTPRequest, hf, hd, hs, recordResponse,
          POCOResult.addHTTPResponseInfo]
  · intro st env m u c resp1 hf hd
    simp [makeHTTPRequest, hf, hd]

/-- Witness for C2: a concrete call whose both responses are Digest
challenges surfaces the second response's 401 status with general status
OK, not a synthesized error. -/
theorem c2_witness :
    (makeHTTPRequest freshClient doubleChallengeEnv "GET" "/rw/system"
      "").result.poco_info.http.response.status = 401 ∧
    (makeHTTPRequest freshClient doubleChallengeEnv "GET" "/rw/system"
      "").result.status = GeneralStatus.OK :=
  (c2_digest_retry_once.2.1 freshClient doubleChallengeEnv "GET" "/rw/system"
      "" challengeResp1 rfl (by decide)).2 challengeResp2 rfl

theorem lookup_upsert_self (jar : List (String × String)) (n v : String) :
    lookupCookie (upsert jar n v) n = some v := by
  induction jar with
  | nil => simp [upsert, lookupCookie]
  | cons head tail ih =>
    by_cases hp : head.1 = n
    · simp [upsert, hp, lookupCookie]
    · simp [upsert, hp, lookupCookie, ih]

theorem lookup_upsert_other (jar : List (String × String)) (n v m : String)
    (hm : m ≠ n) :
    lookupCookie (upsert jar n v) m = lookupCookie jar m := by
  have hnm : n ≠ m := fun h => hm h.symm
  induction jar with
  | nil => simp [upsert, lookupCookie, hnm]
  | cons head tail ih =>
    by_cases hp : head.1 = n
    · have hpm : head.1 ≠ m := by rw [hp]; exact hnm
      simp [upsert, hp, lookupCookie, hnm, hpm]
    · by_cases hq : head.1 = m
      · simp [upsert, hp, lookupCookie, hq, hm]
      · simp [upsert, hp, lookupCookie, hq, ih]

/-- C3: the cookie jar after a call that recorded a response equals the jar
before it with every `Set-Cookie` header of that response upserted in
order; extraction stores the `name=value` pair up to the first `;` under
the name, overwriting an existing entry with that name (upsert: lookup of
the stored name yields the new value, other names are untouched); a call
that caught a fault leaves the jar unchanged; and the jar is attached to
every request the call puts on the wire as its `Cookie` header. -/
theorem c3_cookie_jar_upsert :
    (∀ st env m u c resp, env.first = NetOutcome.ok resp →
      hasDigestChallenge resp = false →
      (makeHTTPRequest st env m u c).state.cookies =
        (setCookieHeaders resp).foldl extractAndStoreCookie st.cookies) ∧
    (∀ st env m u c resp1 resp2, env.first = NetOutcome.ok resp1 →
      hasDigestChallenge resp1 = true → env.second = NetOutcome.ok resp2 →
      (makeHTTPRequest st env m u c).state.cookies =
        (setCookieHeaders resp2).foldl extractAndStoreCookie st.cookies) ∧
    (∀ st env m u c f msg, env.first = NetOutcome.fault f msg →
      (makeHTTPRequest st env m u c).state.cookies = st.cookies) ∧
    (∀ st env m u c resp1 f msg, env.first = NetOutcome.ok resp1 →
      hasDigestChallenge resp1 = true → env.second = NetOutcome.fault f msg →
      (makeHTTPRequest st env m u c).state.cookies = st.cookies) ∧
    extractAndStoreCookie [] "ABBCX=abc123; path=/; HttpOnly" =
      [("ABBCX", "abc123")] ∧
    extractAndStoreCookie [("ABBCX", "old"), ("B", "2")] "ABBCX=new; path=/" =
      [("ABBCX", "new"), ("B", "2")] ∧
    (∀ jar n v, lookupCookie (upsert jar n v) n = some v) ∧
    (∀ jar n v m, m ≠ n →
      lookupCookie (upsert jar n v) m = lookupCookie jar m) ∧
    (∀ st env m u c req, req ∈ (makeHTTPRequest st env m u c).sent →
      headerValue req.headers "Cookie" = some (renderCookies st.cookies)) := by
  refine ⟨?_, ?_, ?_, ?_, by decide, by decide,
    lookup_upsert_self, lookup_upsert_other, ?_⟩
  · intro st env m u c resp hf hd
    simp [makeHTTPRequest, hf, hd, storeCookies]
  · intro st env m u c resp1 resp2 hf hd hs
    simp [makeHTTPRequest, hf, hd, hs, storeCookies]
  · intro st env m u c f msg hf
    simp [makeHTTPRequest, hf]
  · intro st env m u c resp1 f msg hf hd hs
    simp [makeHTTPRequest, hf, hd, hs]
  · intro st env m u c req hreq
    have hcookie : headerValue (buildRequest st.cookies m u c).headers "Cookie"
        = some (renderCookies st.cookies) := by
      simp [headerValue, buildRequest, List.find?]
    cases hf : env.first with
    | fault f msg =>
      simp [makeHTTPRequest, hf] at hreq
      rw [hreq]
      exact hcookie
    | ok resp =>
      by_cases hd : hasDigestChallenge resp = true
      · cases hs : env.second with
        | fault f msg =>
          simp [makeHTTPRequest, hf, hd, hs] at hreq
          rcases hreq with hreq | hreq
          · rw [hreq]; exact hcookie
          · rw [hreq]
            simp [headerValue, buildRequest, List.find?]
        | ok resp2 =>
          simp [makeHTTPRequest, hf, hd, hs] at hreq
          rcases hreq with hreq | hreq
          · rw [hreq]; exact hcookie
          · rw [hreq]
            simp [headerValue, buildRequest, List.find?]
      · simp only [Bool.not_eq_true] at hd
        simp [makeHTTPRequest, hf, hd] at hreq
        rw [hreq]
        exact hcookie

/-- Witness for C3: the concrete `Set-Cookie` header of a successful call
lands in the jar. -/
theorem c3_witness :
    (makeHTTPRequest freshClient plainEnv "GET" "/rw/system" "").state.cookies
      = (setCookieHeaders okResp).foldl extractAndStoreCookie
          freshClient.cookies ∧
    (makeHTTPRequest freshClient plainEnv "GET" "/rw/system" "").state.cookies
      = [("ABBCX", "abc123")] :=
  ⟨c3_cookie_jar_upsert.1 freshClient plainEnv "GET" "/rw/system" "" okResp
      rfl (by decide),
   by decide⟩

/-- A result carries non-default data in exactly one of the two diagnostic
sections. -/
def exactlyOneSectionPopulated (r : POCOResult) : Prop :=
  (r.poco_info.http ≠ ({} : HTTPInfo) ∧
    r.poco_info.websocket = ({} : WebSocketInfo)) ∨
  (r.poco_info.http = ({} : HTTPInfo) ∧
    r.poco_info.websocket ≠ ({} : WebSocketInfo))

/-- A result carries non-default data in at most one of the two sections. -/
def atMostOneSectionPopulated (r : POCOResult) : Prop :=
  r.poco_info.http = ({} : HTTPInfo) ∨
    r.poco_info.websocket = ({} : WebSocketInfo)

/-- C7 counterexample: the claim says every returned result carries
non-default data in exactly one of the two sections, but
`webSocketRecieveFrame` on a fresh client (no handle) returns a result with
both sections still default. -/
theorem c7_counterexample :
    ¬ exactlyOneSectionPopulated
      (webSocketRecieveFrame freshClient (WsOutcome.frame 0 "")).result := by
  unfold exactlyOneSectionPopulated
  decide

theorem makeHTTPRequest_websocket_default (st : ClientState) (env : HttpEnv)
    (m u c : String) :
    (makeHTTPRequest st env m u c).result.poco_info.websocket =
      ({} : WebSocketInfo) := by
  cases hf : env.first with
  | fault f msg =>
    simp [makeHTTPRequest, hf, POCOResult.addHTTPRequestInfo,
      defaultPOCOResult]
  | ok resp =>
    by_cases hd : hasDigestChallenge resp = true
    · cases hs : env.second with
      | fault f msg =>
        simp [makeHTTPRequest, hf, hd, hs, POCOResult.addHTTPRequestInfo,
          defaultPOCOResult]
      | ok resp2 =>
        simp [makeHTTPRequest, hf, hd, hs, recordResponse,
          POCOResult.addHTTPResponseInfo, POCOResult.addHTTPRequestInfo,
          defaultPOCOResult]
    · simp only [Bool.not_eq_true] at hd
      simp [makeHTTPRequest, hf, hd, recordResponse,
        POCOResult.addHTTPResponseInfo, POCOResult.addHTTPRequestInfo,
        defaultPOCOResult]

theorem makeHTTPRequest_records_method (st : ClientState) (env : HttpEnv)
    (m u c : String) :
    (makeHTTPRequest st env m u c).result.poco_info.http.request.method = m := by
  cases hf : env.first with
  | fault f msg =>
    simp [makeHTTPRequest, hf, POCOResult.addHTTPRequestInfo,
      defaultPOCOResult]
  | ok resp =>
    by_cases hd : hasDigestChallenge resp = true
    · cases hs : env.second with
      | fault f msg =>
        simp [makeHTTPRequest, hf, hd, hs, POCOResult.addHTTPRequestInfo,
          defaultPOCOResult]
      | ok resp2 =>
        simp [makeHTTPRequest, hf, hd, hs, recordResponse,
          POCOResult.addHTTPResponseInfo, POCOResult.addHTTPRequestInfo,
          defaultPOCOResult]
    · simp only [Bool.not_eq_true] at hd
      simp [makeHTTPRequest, hf, hd, recordResponse,
        POCOResult.addHTTPResponseInfo, POCOResult.addHTTPRequestInfo,
        defaultPOCOResult]

/-- C7 (amended): each returned result carries non-default data in at most
one of the two sections: every HTTP call (and the `webSocketConnect`
handshake) leaves the WebSocket section default while recording the request
method in the HTTP section (hence for the four public verbs the HTTP
section is non-default), and `webSocketRecieveFrame` leaves the HTTP
section default; a receive that reads no frame (no handle, or a fault)
populates neither section. -/
theorem c7_at_most_one_section :
    (∀ st env m u c,
      atMostOneSectionPopulated (makeHTTPRequest st env m u c).result) ∧
    (∀ st env uri protocol,
      atMostOneSectionPopulated (webSocketConnect st env uri protocol).result) ∧
    (∀ st env,
      atMostOneSectionPopulated (webSocketRecieveFrame st env).result) ∧
    (∀ st env m u c,
      (makeHTTPRequest st env m u c).result.poco_info.websocket =
        ({} : WebSocketInfo)) ∧
    (∀ st env uri protocol,
      (webSocketConnect st env uri protocol).result.poco_info.websocket =
        ({} : WebSocketInfo)) ∧
    (∀ st env,
      (webSocketRecieveFrame st env).result.poco_info.http =
        ({} : HTTPInfo)) ∧
    (∀ st env uri,
      (httpGet st env uri).result.poco_info.http ≠ ({} : HTTPInfo)) ∧
    (∀ st env uri content,
      (httpPost st env uri content).result.poco_info.http ≠
        ({} : HTTPInfo)) ∧
    (∀ st env uri content,
      (httpPut st env uri content).result.poco_info.http ≠ ({} : HTTPInfo)) ∧
    (∀ st env uri,
      (httpDelete st env uri).result.poco_info.http ≠ ({} : HTTPInfo)) ∧
    (∀ st f msg, webSocketExist st = true →
      (webSocketRecieveFrame st (WsOutcome.fault f msg)).result.poco_info =
        ({} : POCOInfo)) := by
  have hwsconn : ∀ st env uri protocol,
      (webSocketConnect st env uri protocol).result.poco_info.websocket =
        ({} : WebSocketInfo) := by
    intro st env uri protocol
    cases env with
    | fault f msg =>
      simp [webSocketConnect, POCOResult.addHTTPRequestInfo, defaultPOCOResult]
    | ok resp =>
      simp [webSocketConnect, recordResponse, POCOResult.addHTTPResponseInfo,
        POCOResult.addHTTPRequestInfo, defaultPOCOResult]
  have hrecv : ∀ st env,
      (webSocketRecieveFrame st env).result.poco_info.http =
        ({} : HTTPInfo) := by
    intro st env
    by_cases hws : webSocketExist st = true
    · cases env with
      | frame flags content =>
        simp [webSocketRecieveFrame, hws, POCOResult.addWebSocketFrameInfo,
          defaultPOCOResult]
      | fault f msg =>
        simp [webSocketRecieveFrame, hws, defaultPOCOResult]
    · simp only [Bool.not_eq_true] at hws
      simp [webSocketRecieveFrame, hws, defaultPOCOResult]
  have hverb : ∀ st env m u c,
      (makeHTTPRequest st env m u c).result.poco_info.http ≠
        ({} : HTTPInfo) → True := fun _ _ _ _ _ _ => trivial
  have hne : ∀ st env uri (m : String), m ≠ "" → ∀ content,
      (makeHTTPRequest st env m uri content).result.poco_info.http ≠
        ({} : HTTPInfo) := by
    intro st env uri m hm content h
    apply hm
    have := makeHTTPRequest_records_method st env m uri content
    rw [h] at this
    exact this.symm
  refine ⟨?_, ?_, ?_, makeHTTPRequest_websocket_default, hwsconn, hrecv,
    ?_, ?_, ?_, ?_, ?_⟩
  · intro st env m u c
    exact Or.inr (makeHTTPRequest_websocket_default st env m u c)
  · intro st env uri protocol
    exact Or.inr (hwsconn st env uri protocol)
  · intro st env
    exact Or.inl (hrecv st env)
  · intro st env uri
    exact hne st env uri "GET" (by decide) ""
  · intro st env uri content
    exact hne st env uri "POST" (by decide) content
  · intro st env uri content
    exact hne st env uri "PUT" (by decide) content
  · intro st env uri
    exact hne st env uri "DELETE" (by decide) ""
  · intro st f msg hws
    simp [webSocketRecieveFrame, hws, defaultPOCOResult]

/-- Witness for C7 (amended) on a concrete HTTP call. -/
theorem c7_witness :
    atMostOneSectionPopulated
      (httpGet freshClient plainEnv "/rw/system").result ∧
    (httpGet freshClient plainEnv "/rw/system").result.poco_info.http ≠
      ({} : HTTPInfo) :=
  ⟨c7_at_most_one_section.1 freshClient plainEnv "GET" "/rw/system" "",
   c7_at_most_one_section.2.2.2.2.2.2.1 freshClient plainEnv "/rw/system"⟩

/-- C8: the recorded HTTP response status of a result on which
`addHTTPResponseInfo` was never called is the default 200 (HTTP_OK): the
`ResponseInfo` default constructor sets 200, a fresh result carries it, any
sequence of the other mutators leaves the whole response part unchanged,
and a call to `addHTTPResponseInfo` overwrites the status with the
response's. -/
theorem c8_response_status_defaults_to_200 :
    ({} : ResponseInfo).status = 200 ∧
    defaultPOCOResult.poco_info.http.response.status = 200 ∧
    (∀ r ops, (∀ op ∈ ops, isRespInfo op = false) →
      (applyOps r ops).poco_info.http.response = r.poco_info.http.response) ∧
    (∀ r resp content,
      (POCOResult.addHTTPResponseInfo r resp
        content).poco_info.http.response.status = resp.status) := by
  refine ⟨rfl, rfl, ?_, fun r resp content => rfl⟩
  intro r ops
  induction ops generalizing r with
  | nil => intro _; rfl
  | cons op rest ih =>
    intro h
    have hop : isRespInfo op = false := h op (List.mem_cons_self op rest)
    have hrest : ∀ op2 ∈ rest, isRespInfo op2 = false :=
      fun op2 h2 => h op2 (List.mem_cons_of_mem op h2)
    have hfold : applyOps r (op :: rest) = applyOps (applyOp r op) rest := rfl
    rw [hfold, ih (applyOp r op) hrest]
    cases op with
    | reqInfo m u c => rfl
    | respInfo resp content => simp [isRespInfo] at hop
    | wsInfo flags content => rfl

/-- Witness for C8: a concrete mutation sequence without
`addHTTPResponseInfo` keeps the default 200. -/
theorem c8_witness :
    (∀ op ∈ [ResultOp.reqInfo "GET" "/rw/system" "", ResultOp.wsInfo 1 "x"],
      isRespInfo op = false) ∧
    (applyOps defaultPOCOResult
      [ResultOp.reqInfo "GET" "/rw/system" "",
       ResultOp.wsInfo 1 "x"]).poco_info.http.response.status = 200 := by
  refine ⟨by decide, ?_⟩
  rw [c8_response_status_defaults_to_200.2.2.1 defaultPOCOResult
    [ResultOp.reqInfo "GET" "/rw/system" "", ResultOp.wsInfo 1 "x"]
    (by decide)]
  rfl

/-- C9: `toString` always includes the mapped general status; it includes
`exception_message` whenever that is non-empty, regardless of verbosity;
with `verbose = false` the output is independent of the response body and
the frame payload (so it never reveals them); with `verbose = true` it
includes method, URI, response status, header block and body when the HTTP
section is populated, and flags, opcode and payload when the WebSocket
section is populated. -/
theorem c9_toString_contents :
    (∀ r v i, containsStr (POCOResult.toString r v i) r.mapGeneralStatus) ∧
    (∀ r v i, r.exception_message ≠ "" →
      containsStr (POCOResult.toString r v i) r.exception_message) ∧
    (∀ r i b p,
      POCOResult.toString (setResponseContent (setFrameContent r p) b) false i
        = POCOResult.toString r false i) ∧
    (∀ r i, r.poco_info.http ≠ ({} : HTTPInfo) →
      containsStr (POCOResult.toString r true i)
          r.poco_info.http.request.method ∧
      containsStr (POCOResult.toString r true i) r.poco_info.http.request.uri ∧
      containsStr (POCOResult.toString r true i)
          (Nat.repr r.poco_info.http.response.status) ∧
      containsStr (POCOResult.toString r true i)
          r.poco_info.http.response.header_info ∧
      containsStr (POCOResult.toString r true i)
          r.poco_info.http.response.content) ∧
    (∀ r i, r.poco_info.websocket ≠ ({} : WebSocketInfo) →
      containsStr (POCOResult.toString r true i)
          (Int.repr r.poco_info.websocket.flags) ∧
      containsStr (POCOResult.toString r true i)
          (mapOpcode r.poco_info.websocket.flags) ∧
      containsStr (POCOResult.toString r true i)
          r.poco_info.websocket.frame_content) := by
  refine ⟨?_, ?_, ?_, ?_, ?_⟩
  · intro r v i
    simp only [POCOResult.toString]
    exact containsStr_right _ (containsStr_end _ _)
  · intro r v i h
    simp only [POCOResult.toString, exceptionPart]
    rw [if_neg h]
    exact containsStr_left _ (containsStr_right _ (containsStr_end _ _))
  · intro r i b p
    rfl
  · intro r i h
    refine ⟨?_, ?_, ?_, ?_, ?_⟩ <;>
    · simp [POCOResult.toString, verboseInfo, httpDetail, h]
      refine containsStr_left _ (containsStr_left _ (containsStr_right _ ?_))
      repeat first
        | exact containsStr_end _ _
        | apply containsStr_right
  · intro r i h
    refine ⟨?_, ?_, ?_⟩ <;>
    · simp [POCOResult.toString, verboseInfo, wsDetail, h]
      refine containsStr_left _ (containsStr_left _ (containsStr_left _ ?_))
      repeat first
        | exact containsStr_end _ _
        | apply containsStr_right

/-- A concrete timed-out result, as a fault path would produce it. -/
def timeoutResult : POCOResult where
  status := GeneralStatus.EXCEPTION_POCO_TIMEOUT
  exception_message := "Timeout"
  poco_info := {}

/-- Witness for C9: a concrete timed-out result's non-verbose rendering
contains its exception message. -/
theorem c9_witness :
    timeoutResult.exception_message ≠ "" ∧
    containsStr (POCOResult.toString timeoutResult false 2) "Timeout" :=
  ⟨by decide, c9_toString_contents.2.1 timeoutResult false 2 (by decide)⟩

end AbbLibrws
